import Mathlib

/-!
Shallow embedding of the Nexus-Watch risk aggregation engine
(`src/risk_engine.py`, class `RiskEngine`).

The engine runs one Cypher query against a labeled property graph and
returns a table of per-company risk rows.  We embed the graph as explicit
edge lists (a Neo4j graph is a multigraph: the same relationship type may
link the same pair of nodes more than once, so edges are lists, not sets),
and translate the query stage by stage:

* `MATCH (c)-[:HAS_RISK_EVENT]->(n)` with `count(n) * 10` counts matched
  relationships (no `DISTINCT` in the source), while
  `collect(distinct n.title)` deduplicates titles;
* the contagion stage uses `count(DISTINCT infected)` and
  `collect(DISTINCT ...)`;
* the supply stage sums `r.value` over matched relationship rows and
  counts `distinct g`;
* `Cypher` `collect(distinct ...)` is modelled by `List.dedup` (the set of
  collected elements is what the claims are about, not their order);
* `WHERE total_score > 0` then `ORDER BY total_score DESC` becomes a
  filter followed by an insertion sort on a descending-score relation.

`check_market_volatility` is embedded with the external price fetch as an
oracle `String → Option (List ℚ)`: `none` models the fetch raising (any
exception lands in the `except` branch), `some hist` a returned series of
closing prices, modelled over `ℚ`.
-/

/-- A `Company` node: internal node identity plus `ticker` and `name`
properties. -/
structure Company where
  id : Nat
  ticker : String
  name : String
deriving DecidableEq

/-- A `NewsEvent` node with its `title` property. -/
structure NewsEvent where
  id : Nat
  title : String
deriving DecidableEq

/-- A `Person` node (a director) with its `name` property. -/
structure Person where
  id : Nat
  name : String
deriving DecidableEq

/-- A `Supplier` node (an alias/subsidiary entity). -/
structure Supplier where
  id : Nat
deriving DecidableEq

/-- A `GovernmentAgency` node with its `name` property. -/
structure GovernmentAgency where
  id : Nat
  name : String
deriving DecidableEq

/-- A `Sector` node (owned by the graph store; the engine's query never
reads it). -/
structure Sector where
  id : Nat
  name : String
deriving DecidableEq

/-- A `RiskDisclosure` node (owned by the graph store; the engine's query
never reads it). -/
structure RiskDisclosure where
  id : Nat
  name : String
deriving DecidableEq

/-- The property graph the query runs against: the company nodes and one
edge list per relationship type.  `suppliesTo` edges carry the numeric
`value` property.  Parallel relationships are represented by duplicate
list entries. -/
structure Graph where
  companies : List Company
  hasRiskEvent : List (Company × NewsEvent)
  directorOf : List (Person × Company)
  isAlso : List (Company × Supplier)
  suppliesTo : List (Supplier × GovernmentAgency × Int)
  exposedToSector : List (Company × Sector)
  acknowledgesRisk : List (Company × RiskDisclosure)
deriving DecidableEq

/-- Vector 1 match: the `NewsEvent` endpoints of the `HAS_RISK_EVENT`
relationships leaving `c`, one entry per relationship. -/
def newsEvents (g : Graph) (c : Company) : List NewsEvent :=
  (g.hasRiskEvent.filter (fun e => e.1 = c)).map (fun e => e.2)

/-- `count(n) * 10 AS direct_score`: counts matched relationships (the
source does not write `count(DISTINCT n)`). -/
def directScore (g : Graph) (c : Company) : Nat :=
  10 * (newsEvents g c).length

/-- `collect(distinct n.title) as news_titles`. -/
def newsTitles (g : Graph) (c : Company) : List String :=
  ((newsEvents g c).map (fun n => n.title)).dedup

/-- `(infected)-[:HAS_RISK_EVENT]->()`: the company has at least one
outgoing risk-event relationship. -/
def isInfected (g : Graph) (d : Company) : Prop :=
  ∃ e ∈ g.hasRiskEvent, e.1 = d

instance (g : Graph) (d : Company) : Decidable (isInfected g d) :=
  List.decidableBEx _ g.hasRiskEvent

/-- Vector 2 match `(c)<-[:DIRECTOR_OF]-(p)-[:DIRECTOR_OF]->(infected)`
with `WHERE (infected)-[:HAS_RISK_EVENT]->() AND c <> infected`: one row
per pair of `DIRECTOR_OF` relationships. -/
def contagionPairs (g : Graph) (c : Company) : List (Person × Company) :=
  (g.directorOf.filter (fun e => e.2 = c)).flatMap (fun e1 =>
    ((g.directorOf.filter (fun e2 =>
        e2.1 = e1.1 ∧ e2.2 ≠ c ∧ isInfected g e2.2)).map
      (fun e2 => (e1.1, e2.2))))

/-- `collect(DISTINCT p.name + ' via ' + infected.ticker) as
contagion_details`. -/
def contagionDetails (g : Graph) (c : Company) : List String :=
  ((contagionPairs g c).map
    (fun pr => pr.1.name ++ " via " ++ pr.2.ticker)).dedup

/-- `count(DISTINCT infected) * 5 as contagion_score`. -/
def contagionScore (g : Graph) (c : Company) : Nat :=
  5 * ((contagionPairs g c).map (fun pr => pr.2)).dedup.length

/-- Vector 3 match `(c)-[:IS_ALSO]->(s)-[r:SUPPLIES_TO]->(g)`: one row
per pair of an `IS_ALSO` and a `SUPPLIES_TO` relationship, keeping the
agency endpoint and the `value` property of `r`. -/
def supplyRows (g : Graph) (c : Company) : List (GovernmentAgency × Int) :=
  (g.isAlso.filter (fun e => e.1 = c)).flatMap (fun e1 =>
    ((g.suppliesTo.filter (fun e2 => e2.1 = e1.2)).map
      (fun e2 => (e2.2.1, e2.2.2))))

/-- `sum(r.value) as total_contract_val`. -/
def totalContractVal (g : Graph) (c : Company) : Int :=
  ((supplyRows g c).map (fun row => row.2)).sum

/-- `count(distinct g) as agency_count`. -/
def agencyCount (g : Graph) (c : Company) : Nat :=
  ((supplyRows g c).map (fun row => row.1)).dedup.length

/-- `collect(distinct g.name) as agency_names`. -/
def agencyNames (g : Graph) (c : Company) : List String :=
  ((supplyRows g c).map (fun row => row.1.name)).dedup

/-- The `CASE` expression computing `supply_score` from
`total_contract_val` and `agency_count`, with its branches in source
order (first match wins). -/
def supplyScore (v : Int) (n : Nat) : Nat :=
  if v > 50000000 ∧ n = 1 then 15
  else if v > 50000000 ∧ n > 1 then 5
  else if v > 10000000 ∧ n = 1 then 8
  else 0

/-- The engine's `supply_score` for company `c`. -/
def supplyScoreOf (g : Graph) (c : Company) : Nat :=
  supplyScore (totalContractVal g c) (agencyCount g c)

/-- `(direct_score + contagion_score + supply_score) as total_score`. -/
def totalScore (g : Graph) (c : Company) : Nat :=
  directScore g c + contagionScore g c + supplyScoreOf g c

/-- One record of the `RETURN` clause.  These are exactly the returned
fields: the query computes no climate/sector vector, so there are no
`Climate_Risk`, `Exposed_Sectors` or `Disclosed_Risks` fields; it does
return `Client_Count`. -/
structure Row where
  Ticker : String
  Name : String
  Score : Nat
  Direct_Risk : Nat
  Contagion_Risk : Nat
  Supply_Risk : Nat
  News_Context : List String
  Contagion_Context : List String
  Govt_Clients : List String
  Client_Count : Nat
  Contract_Value : Int
deriving DecidableEq

/-- The row the query produces for company `c` (before the
`total_score > 0` filter). -/
def companyRow (g : Graph) (c : Company) : Row where
  Ticker := c.ticker
  Name := c.name
  Score := totalScore g c
  Direct_Risk := directScore g c
  Contagion_Risk := contagionScore g c
  Supply_Risk := supplyScoreOf g c
  News_Context := newsTitles g c
  Contagion_Context := contagionDetails g c
  Govt_Clients := agencyNames g c
  Client_Count := agencyCount g c
  Contract_Value := totalContractVal g c

/-- The descending-score order used by `ORDER BY total_score DESC`. -/
def scoreGE (a b : Row) : Prop := b.Score ≤ a.Score

instance : DecidableRel scoreGE := fun a b => Nat.decLe b.Score a.Score

instance : IsTotal Row scoreGE := ⟨fun a b => Nat.le_total b.Score a.Score⟩

instance : IsTrans Row scoreGE :=
  ⟨fun _ _ _ hab hbc => Nat.le_trans hbc hab⟩

/-- `get_risk_dashboard_data`: one row per company, `WHERE
total_score > 0`, `ORDER BY total_score DESC`; an empty list when no
company qualifies (the Python code returns an empty dataframe then). -/
def getRiskDashboardData (g : Graph) : List Row :=
  List.insertionSort scoreGE
    ((g.companies.map (companyRow g)).filter (fun r => 0 < r.Score))

/-- Market-signal classification returned by `check_market_volatility`;
each constructor stands for one of the function's return strings, with
the percentage change where the string interpolates it. -/
inductive Volatility where
  | confirmed (pct : ℚ)
  | uncorrelated (pct : ℚ)
  | stable
  | unknownNoData
  | unknown
deriving DecidableEq

/-- The body of `check_market_volatility` after the fetch: fewer than two
points returns `Unknown (No Data)`; a zero first close makes the
percentage-change division raise, landing in the `except` branch
(`Unknown`); otherwise the change from first to last close is classified
by the `< -2.0` / `> 0` thresholds. -/
def classifyHistory (hist : List ℚ) : Volatility :=
  if hist.length < 2 then .unknownNoData
  else
    let startPrice := hist.headI
    let endPrice := hist.getLastD 0
    if startPrice = 0 then .unknown
    else
      let pct := (endPrice - startPrice) / startPrice * 100
      if pct < -2 then .confirmed pct
      else if 0 < pct then .uncorrelated pct
      else .stable

/-- The symbol the market-data source is queried for:
`f"{ticker}.AX"`. -/
def queriedSymbol (ticker : String) : String := ticker ++ ".AX"

/-- `check_market_volatility`, with the external price feed as an oracle:
`fetch s = none` models the lookup for symbol `s` raising (caught by the
`except`, returning `Unknown`), `some hist` a fetched series of daily
closes. -/
def checkMarketVolatility (fetch : String → Option (List ℚ))
    (ticker : String) : Volatility :=
  match fetch (queriedSymbol ticker) with
  | none => .unknown
  | some hist => classifyHistory hist

/-- Climate & Sector sub-score as the spec words it:
`10 × (distinct Sector exposure count) + 5 × (distinct RiskDisclosure
count)`, from `exposed to sector` and `acknowledges risk` relations.
The engine's query computes no such score and reads no such relations;
this definition exists only to compare the spec against the code. -/
def specClimateRisk (g : Graph) (c : Company) : Nat :=
  10 * ((g.exposedToSector.filter (fun e => e.1 = c)).map
      (fun e => e.2)).dedup.length
    + 5 * ((g.acknowledgesRisk.filter (fun e => e.1 = c)).map
        (fun e => e.2)).dedup.length

lemma mem_dashboard_iff (g : Graph) (r : Row) :
    r ∈ getRiskDashboardData g ↔
      (∃ c ∈ g.companies, companyRow g c = r) ∧ 0 < r.Score := by
  simp [getRiskDashboardData, List.mem_filter]

lemma mem_contagionPairs (g : Graph) (c : Company) (pr : Person × Company) :
    pr ∈ contagionPairs g c ↔
      (pr.1, c) ∈ g.directorOf ∧ (pr.1, pr.2) ∈ g.directorOf ∧
        pr.2 ≠ c ∧ isInfected g pr.2 := by
  simp only [contagionPairs, List.mem_flatMap, List.mem_filter, List.mem_map,
    decide_eq_true_eq]
  constructor
  · rintro ⟨e1, ⟨he1, hc⟩, e2, ⟨he2, hp, hne, hinf⟩, hpr⟩
    obtain ⟨p1, c1⟩ := e1
    obtain ⟨p2, c2⟩ := e2
    simp only at hc hp
    subst hc hp hpr
    exact ⟨he1, he2, hne, hinf⟩
  · rintro ⟨h1, h2, hne, hinf⟩
    exact ⟨(pr.1, c), ⟨h1, rfl⟩, (pr.1, pr.2), ⟨h2, rfl, hne, hinf⟩, rfl⟩

def cA : Company := ⟨0, "AAA", "Alpha Ltd"⟩

def cB : Company := ⟨1, "BBB", "Beta Ltd"⟩

def n1 : NewsEvent := ⟨0, "fraud probe"⟩

def sec1 : Sector := ⟨0, "coal"⟩

def dis1 : RiskDisclosure := ⟨0, "physical risk"⟩

def gA1 : Graph :=
  { companies := [cA]
    hasRiskEvent := [(cA, n1)]
    directorOf := []
    isAlso := []
    suppliesTo := []
    exposedToSector := [(cA, sec1)]
    acknowledgesRisk := [] }

def gA0 : Graph := { gA1 with exposedToSector := [] }

def gB : Graph :=
  { companies := [cB]
    hasRiskEvent := []
    directorOf := []
    isAlso := []
    suppliesTo := []
    exposedToSector := [(cB, sec1)]
    acknowledgesRisk := [(cB, dis1)] }

/-- Claim C1, counterexample: the claim says `Score` is the sum of four
sub-scores including a climate one; on a one-company graph with one news
event and one sector exposure the returned `Score` is 10, not
`10 + 0 + 0 + 10`. -/
theorem score_not_sum_of_four_counterexample :
    getRiskDashboardData gA1 = [companyRow gA1 cA] ∧
    specClimateRisk gA1 cA = 10 ∧
    (companyRow gA1 cA).Score ≠
      (companyRow gA1 cA).Direct_Risk + (companyRow gA1 cA).Contagion_Risk +
        (companyRow gA1 cA).Supply_Risk + specClimateRisk gA1 cA := by
  refine ⟨by decide, by decide, by decide⟩

/-- Claim C1, amended: for every row in the result of
`get_risk_dashboard_data`, `Score` equals exactly the sum of the three
sub-scores `Direct_Risk + Contagion_Risk + Supply_Risk`, each a
non-negative integer (the engine computes no fourth, climate
sub-score). -/
theorem score_eq_sum_of_three_vectors (g : Graph) (r : Row)
    (hr : r ∈ getRiskDashboardData g) :
    r.Score = r.Direct_Risk + r.Contagion_Risk + r.Supply_Risk := by
  obtain ⟨⟨c, hc, rfl⟩, hpos⟩ := (mem_dashboard_iff g r).1 hr
  rfl

/-- Claim C1, witness: the amended theorem applied to the one row of a
concrete dashboard. -/
theorem score_eq_sum_of_three_vectors_witness :
    companyRow gA1 cA ∈ getRiskDashboardData gA1 ∧
    (companyRow gA1 cA).Score =
      (companyRow gA1 cA).Direct_Risk + (companyRow gA1 cA).Contagion_Risk +
        (companyRow gA1 cA).Supply_Risk :=
  ⟨by decide, score_eq_sum_of_three_vectors gA1 (companyRow gA1 cA) (by decide)⟩

/-- Claim C2, counterexample: the claim says every row carries a
`Climate_Risk` sub-score of `10 × sectors + 5 × disclosures` plus
`Exposed_Sectors` and `Disclosed_Risks` fields.  Two graphs differing
only in sector exposures (spec climate score 10 vs 0) produce identical,
non-empty results, so no output field can carry that sub-score; and a
company with spec climate score 15 and nothing else is not even
returned. -/
theorem climate_fields_counterexample :
    getRiskDashboardData gA1 = getRiskDashboardData gA0 ∧
    getRiskDashboardData gA1 ≠ [] ∧
    specClimateRisk gA1 cA = 10 ∧ specClimateRisk gA0 cA = 0 ∧
    specClimateRisk gB cB = 15 ∧ getRiskDashboardData gB = [] := by
  refine ⟨by decide, by decide, by decide, by decide, by decide, by decide⟩

/-- Claim C2, amended: the engine computes no Climate & Sector sub-score
at all — its result is invariant under arbitrary changes to the
Sector-exposure and RiskDisclosure relations, and rows carry only the
fields `Ticker, Name, Score, Direct_Risk, Contagion_Risk, Supply_Risk,
News_Context, Contagion_Context, Govt_Clients, Client_Count,
Contract_Value`. -/
theorem climate_data_ignored (g : Graph) (secs : List (Company × Sector))
    (discs : List (Company × RiskDisclosure)) :
    getRiskDashboardData
        { g with exposedToSector := secs, acknowledgesRisk := discs } =
      getRiskDashboardData g := rfl

def sup1 : Supplier := ⟨0⟩

def ag1 : GovernmentAgency := ⟨0, "Dept of Health"⟩

def ag2 : GovernmentAgency := ⟨1, "Dept of Defence"⟩

def cW : Company := ⟨2, "WWW", "Walter Ltd"⟩

def supGraph (edges : List (Supplier × GovernmentAgency × Int)) : Graph :=
  { companies := [cW]
    hasRiskEvent := []
    directorOf := []
    isAlso := [(cW, sup1)]
    suppliesTo := edges
    exposedToSector := []
    acknowledgesRisk := [] }

def gS15 : Graph := supGraph [(sup1, ag1, 50000001)]

def gS5 : Graph := supGraph [(sup1, ag1, 25000000), (sup1, ag2, 25000001)]

def gS8 : Graph := supGraph [(sup1, ag1, 10000001)]

def gS0 : Graph := supGraph [(sup1, ag1, 10000000)]

/-- Claim C3: the tiered supply rule with strictly-greater-than
thresholds, evaluated in precedence order: total contract value
50,000,001 with exactly 1 distinct agency scores 15; the same value with
2 (or more) distinct agencies scores 5; 10,000,001 with 1 agency scores
8; exactly 10,000,000 with 1 agency scores 0. -/
theorem supply_tier_boundaries :
    (totalContractVal gS15 cW = 50000001 ∧ agencyCount gS15 cW = 1 ∧
      (companyRow gS15 cW).Supply_Risk = 15 ∧
      getRiskDashboardData gS15 = [companyRow gS15 cW]) ∧
    (totalContractVal gS5 cW = 50000001 ∧ agencyCount gS5 cW = 2 ∧
      (companyRow gS5 cW).Supply_Risk = 5) ∧
    (∀ n : Nat, 2 ≤ n → supplyScore 50000001 n = 5) ∧
    (totalContractVal gS8 cW = 10000001 ∧ agencyCount gS8 cW = 1 ∧
      (companyRow gS8 cW).Supply_Risk = 8) ∧
    (totalContractVal gS0 cW = 10000000 ∧ agencyCount gS0 cW = 1 ∧
      (companyRow gS0 cW).Supply_Risk = 0) := by
  refine ⟨by decide, by decide, ?_, by decide, by decide⟩
  intro n hn
  have h1 : ¬ ((50000001 : Int) > 50000000 ∧ n = 1) := by
    rintro ⟨-, h⟩; omega
  have h2 : (50000001 : Int) > 50000000 ∧ n > 1 := ⟨by norm_num, by omega⟩
  rw [supplyScore, if_neg h1, if_pos h2]

/-- Claim C3, witness: the or-more branch applied at 3 agencies. -/
theorem supply_tier_boundaries_witness :
    2 ≤ 3 ∧ supplyScore 50000001 3 = 5 :=
  ⟨by decide, supply_tier_boundaries.2.2.1 3 (by decide)⟩

def gDup : Graph :=
  { companies := [cA]
    hasRiskEvent := [(cA, n1), (cA, n1)]
    directorOf := []
    isAlso := []
    suppliesTo := []
    exposedToSector := []
    acknowledgesRisk := [] }

/-- Claim C4, counterexample: the claim says `Direct_Risk` is unaffected
by duplicate links to the same `NewsEvent`; with two parallel
`HAS_RISK_EVENT` relationships to one event the engine returns
`Direct_Risk = 20`, not `10 × 1`. -/
theorem direct_risk_duplicate_link_counterexample :
    (companyRow gDup cA).Direct_Risk = 20 ∧
    (newsEvents gDup cA).dedup.length = 1 ∧
    (companyRow gDup cA).Direct_Risk ≠ 10 * (newsEvents gDup cA).dedup.length := by
  refine ⟨by decide, by decide, by decide⟩

/-- Claim C4, amended: `Direct_Risk` equals 10 times the number of
`HAS_RISK_EVENT` relationships from the company (duplicate links counted
separately, since the query counts matched rows, not distinct nodes), so
it is always an exact multiple of 10; when no link is duplicated it
equals 10 times the distinct `NewsEvent` count. -/
theorem direct_risk_counts_links (g : Graph) (c : Company) :
    (companyRow g c).Direct_Risk = 10 * (newsEvents g c).length ∧
    10 ∣ (companyRow g c).Direct_Risk ∧
    ((newsEvents g c).Nodup →
      (companyRow g c).Direct_Risk = 10 * (newsEvents g c).dedup.length) := by
  refine ⟨rfl, ⟨(newsEvents g c).length, rfl⟩, fun h => ?_⟩
  rw [List.dedup_eq_self.2 h]
  rfl

/-- Claim C4, witness: the duplicate-free branch applied to a concrete
graph. -/
theorem direct_risk_counts_links_witness :
    (newsEvents gA1 cA).Nodup ∧
    (companyRow gA1 cA).Direct_Risk = 10 * (newsEvents gA1 cA).dedup.length :=
  ⟨by decide, (direct_risk_counts_links gA1 cA).2.2 (by decide)⟩

/-- The set of companies the spec calls contagion sources for `c`: other
companies that share a director with `c` and have at least one news
event.  Any such company is a `DIRECTOR_OF` target, so that list is a
complete carrier. -/
def infectedPartners (g : Graph) (c : Company) : Finset Company :=
  (g.directorOf.map (fun e => e.2)).toFinset.filter
    (fun d => d ≠ c ∧ isInfected g d ∧
      ∃ e ∈ g.directorOf, e.2 = c ∧ (e.1, d) ∈ g.directorOf)

lemma mem_infectedPartners (g : Graph) (c d : Company) :
    d ∈ infectedPartners g c ↔
      d ≠ c ∧ (∃ e ∈ g.hasRiskEvent, e.1 = d) ∧
        ∃ p : Person, (p, c) ∈ g.directorOf ∧ (p, d) ∈ g.directorOf := by
  simp only [infectedPartners, Finset.mem_filter, List.mem_toFinset,
    List.mem_map, isInfected]
  constructor
  · rintro ⟨-, hne, hinf, e, he, hec, hed⟩
    obtain ⟨p1, c1⟩ := e
    simp only at hec
    subst hec
    exact ⟨hne, hinf, p1, he, hed⟩
  · rintro ⟨hne, hinf, p, hpc, hpd⟩
    exact ⟨⟨(p, d), hpd, rfl⟩, hne, hinf, (p, c), hpc, rfl, hpd⟩

lemma infected_toFinset (g : Graph) (c : Company) :
    ((contagionPairs g c).map (fun pr => pr.2)).toFinset =
      infectedPartners g c := by
  ext d
  rw [mem_infectedPartners]
  simp only [List.mem_toFinset, List.mem_map]
  constructor
  · rintro ⟨pr, hpr, rfl⟩
    obtain ⟨h1, h2, hne, hinf⟩ := (mem_contagionPairs g c pr).1 hpr
    exact ⟨hne, hinf, pr.1, h1, h2⟩
  · rintro ⟨hne, hinf, p, hpc, hpd⟩
    exact ⟨(p, d), (mem_contagionPairs g c (p, d)).2 ⟨hpc, hpd, hne, hinf⟩, rfl⟩

/-- Claim C5: `Contagion_Risk` equals 5 times the distinct count of
other companies (never `c` itself) that share a director with `c` and
have at least one `NewsEvent`, and every contagion detail string in
`Contagion_Context` comes from a director and an infected company
distinct from `c`. -/
theorem contagion_score_spec (g : Graph) (c : Company) :
    contagionScore g c = 5 * (infectedPartners g c).card ∧
    (∀ d : Company, d ∈ infectedPartners g c ↔
        d ≠ c ∧ (∃ e ∈ g.hasRiskEvent, e.1 = d) ∧
          ∃ p : Person, (p, c) ∈ g.directorOf ∧ (p, d) ∈ g.directorOf) ∧
    (∀ s ∈ (companyRow g c).Contagion_Context,
        ∃ p d, (p, c) ∈ g.directorOf ∧ (p, d) ∈ g.directorOf ∧ d ≠ c ∧
          (∃ e ∈ g.hasRiskEvent, e.1 = d) ∧
          s = p.name ++ " via " ++ d.ticker) := by
  refine ⟨?_, mem_infectedPartners g c, ?_⟩
  · rw [contagionScore, ← infected_toFinset g c, List.card_toFinset]
  · intro s hs
    have hs' : s ∈ ((contagionPairs g c).map
        (fun pr => pr.1.name ++ " via " ++ pr.2.ticker)).dedup := hs
    rw [List.mem_dedup, List.mem_map] at hs'
    obtain ⟨pr, hpr, rfl⟩ := hs'
    obtain ⟨h1, h2, hne, hinf⟩ := (mem_contagionPairs g c pr).1 hpr
    exact ⟨pr.1, pr.2, h1, h2, hne, hinf, rfl⟩

def p1 : Person := ⟨0, "Jane Doe"⟩

def cC : Company := ⟨3, "CCC", "Gamma Ltd"⟩

def cD : Company := ⟨4, "DDD", "Delta Ltd"⟩

def gC5 : Graph :=
  { companies := [cC, cD]
    hasRiskEvent := [(cD, n1)]
    directorOf := [(p1, cC), (p1, cD)]
    isAlso := []
    suppliesTo := []
    exposedToSector := []
    acknowledgesRisk := [] }

/-- Claim C5, witness: a two-company, one-shared-director graph where
the score is `5 × 1` and the single detail string is accounted for. -/
theorem contagion_score_spec_witness :
    contagionScore gC5 cC = 5 * (infectedPartners gC5 cC).card ∧
    (infectedPartners gC5 cC).card = 1 ∧
    "Jane Doe via DDD" ∈ (companyRow gC5 cC).Contagion_Context ∧
    (∃ p d, (p, cC) ∈ gC5.directorOf ∧ (p, d) ∈ gC5.directorOf ∧ d ≠ cC ∧
      (∃ e ∈ gC5.hasRiskEvent, e.1 = d) ∧
      "Jane Doe via DDD" = p.name ++ " via " ++ d.ticker) :=
  ⟨(contagion_score_spec gC5 cC).1, by decide, by decide,
    (contagion_score_spec gC5 cC).2.2 "Jane Doe via DDD" (by decide)⟩

/-- Claim C6: a company appears in the result if and only if its total
score is strictly positive — every returned row has `Score > 0`, every
company with positive total score is returned, and a company whose
sub-scores are all zero (including the spec's climate score) is
absent. -/
theorem appearance_iff_positive_score (g : Graph) :
    (∀ r ∈ getRiskDashboardData g, 0 < r.Score) ∧
    (∀ c ∈ g.companies,
      (companyRow g c ∈ getRiskDashboardData g ↔ 0 < totalScore g c)) ∧
    (∀ c ∈ g.companies, directScore g c = 0 → contagionScore g c = 0 →
      supplyScoreOf g c = 0 → specClimateRisk g c = 0 →
      companyRow g c ∉ getRiskDashboardData g) := by
  have hall : ∀ r ∈ getRiskDashboardData g, 0 < r.Score :=
    fun r hr => ((mem_dashboard_iff g r).1 hr).2
  have hiff : ∀ c ∈ g.companies,
      (companyRow g c ∈ getRiskDashboardData g ↔ 0 < totalScore g c) := by
    intro c hc
    constructor
    · intro hmem
      exact hall _ hmem
    · intro hpos
      exact (mem_dashboard_iff g _).2 ⟨⟨c, hc, rfl⟩, hpos⟩
  refine ⟨hall, hiff, ?_⟩
  intro c hc hd hcon hsup _ hmem
  have hpos : 0 < totalScore g c := (hiff c hc).1 hmem
  rw [totalScore, hd, hcon, hsup] at hpos
  exact Nat.lt_irrefl 0 hpos

def cE : Company := ⟨5, "EEE", "Empty Ltd"⟩

def gC6 : Graph :=
  { companies := [cA, cE]
    hasRiskEvent := [(cA, n1)]
    directorOf := []
    isAlso := []
    suppliesTo := []
    exposedToSector := []
    acknowledgesRisk := [] }

/-- Claim C6, witness: in a two-company graph the scored company is
returned and the zero-score company is not. -/
theorem appearance_iff_positive_score_witness :
    companyRow gC6 cA ∈ getRiskDashboardData gC6 ∧
    companyRow gC6 cE ∉ getRiskDashboardData gC6 :=
  ⟨((appearance_iff_positive_score gC6).2.1 cA (by decide)).2 (by decide),
    (appearance_iff_positive_score gC6).2.2 cE (by decide) (by decide)
      (by decide) (by decide) (by decide)⟩

/-- Claim C7: the result sequence is sorted descending by total score —
for any two rows where `a` appears before `b`, `a.Score ≥ b.Score`. -/
theorem dashboard_sorted_descending (g : Graph) :
    (getRiskDashboardData g).Pairwise (fun a b => b.Score ≤ a.Score) := by
  have h := List.sorted_insertionSort scoreGE
    ((g.companies.map (companyRow g)).filter (fun r => 0 < r.Score))
  exact h

/-- Claim C8: when no company qualifies (no strictly positive total
score, including the empty graph), `get_risk_dashboard_data` returns the
explicitly empty, zero-row result — a normal value, not an error (the
embedding is a total function into lists). -/
theorem empty_result_when_no_qualifier (g : Graph)
    (h : ∀ c ∈ g.companies, totalScore g c = 0) :
    getRiskDashboardData g = [] := by
  rw [getRiskDashboardData]
  have hfil : (g.companies.map (companyRow g)).filter
      (fun r => 0 < r.Score) = [] := by
    rw [List.filter_eq_nil_iff]
    rintro r hr
    obtain ⟨c, hc, rfl⟩ := List.mem_map.1 hr
    simp only [decide_eq_true_eq]
    show ¬ 0 < totalScore g c
    rw [h c hc]
    exact Nat.lt_irrefl 0
  rw [hfil]
  rfl

def gEmpty : Graph :=
  { companies := []
    hasRiskEvent := []
    directorOf := []
    isAlso := []
    suppliesTo := []
    exposedToSector := []
    acknowledgesRisk := [] }

def gZero : Graph :=
  { companies := [cE]
    hasRiskEvent := []
    directorOf := []
    isAlso := []
    suppliesTo := []
    exposedToSector := []
    acknowledgesRisk := [] }

/-- Claim C8, witness: the theorem applied to the empty graph and to a
graph whose only company scores zero. -/
theorem empty_result_when_no_qualifier_witness :
    (∀ c ∈ gEmpty.companies, totalScore gEmpty c = 0) ∧
    getRiskDashboardData gEmpty = [] ∧
    (∀ c ∈ gZero.companies, totalScore gZero c = 0) ∧
    getRiskDashboardData gZero = [] :=
  ⟨by decide, empty_result_when_no_qualifier gEmpty (by decide),
    by decide, empty_result_when_no_qualifier gZero (by decide)⟩

/-- Claim C9: `check_market_volatility` always returns a classification
(the embedding is total; every fetch outcome, including a raising fetch,
maps to a constructor): a failing fetch yields the unknown
classification, fewer than 2 price points yields the no-data
classification, and otherwise — whenever the percentage change from the
first to the last close is defined, i.e. the first close is non-zero —
the change is classified as confirmed below −2%, uncorrelated above 0%,
and stable in between. -/
theorem volatility_classification_total (fetch : String → Option (List ℚ))
    (t : String) :
    (fetch (queriedSymbol t) = none →
      checkMarketVolatility fetch t = .unknown) ∧
    (∀ hist, fetch (queriedSymbol t) = some hist → hist.length < 2 →
      checkMarketVolatility fetch t = .unknownNoData) ∧
    (∀ hist, fetch (queriedSymbol t) = some hist → 2 ≤ hist.length →
      hist.headI ≠ 0 →
      checkMarketVolatility fetch t =
        if (hist.getLastD 0 - hist.headI) / hist.headI * 100 < -2 then
          .confirmed ((hist.getLastD 0 - hist.headI) / hist.headI * 100)
        else if 0 < (hist.getLastD 0 - hist.headI) / hist.headI * 100 then
          .uncorrelated ((hist.getLastD 0 - hist.headI) / hist.headI * 100)
        else .stable) := by
  refine ⟨?_, ?_, ?_⟩
  · intro h
    rw [checkMarketVolatility, h]
  · intro hist h hlen
    rw [checkMarketVolatility, h]
    show classifyHistory hist = _
    rw [classifyHistory, if_pos hlen]
  · intro hist h hlen h0
    rw [checkMarketVolatility, h]
    show classifyHistory hist = _
    rw [classifyHistory, if_neg (by omega), if_neg h0]

def fetchW : String → Option (List ℚ) :=
  fun s => if s = "BHP.AX" then some [100, 97] else none

def fetchW2 : String → Option (List ℚ) :=
  fun s => if s = "BHP.AX" then some [100, 97] else some [1, 2, 3]

/-- Claim C9, witness: a concrete 5-day window falling 3% classifies as
confirmed. -/
theorem volatility_classification_total_witness :
    fetchW (queriedSymbol "BHP") = some [100, 97] ∧
    2 ≤ ([100, 97] : List ℚ).length ∧ ([100, 97] : List ℚ).headI ≠ 0 ∧
    checkMarketVolatility fetchW "BHP" = .confirmed (-3) := by
  refine ⟨rfl, by decide, by norm_num [List.headI], ?_⟩
  have h := (volatility_classification_total fetchW "BHP").2.2 [100, 97] rfl
    (by decide) (by norm_num [List.headI])
  rw [h]
  norm_num [List.headI, List.getLastD]

/-- Claim C10: for every ticker `t`, `check_market_volatility` queries
the market-data source for `t` with `.AX` appended — a symbol that is
never `t` itself — and the outcome depends on the fetch oracle only at
that suffixed symbol. -/
theorem queried_symbol_ax (t : String) :
    queriedSymbol t = t ++ ".AX" ∧ queriedSymbol t ≠ t ∧
    ∀ f₁ f₂ : String → Option (List ℚ), f₁ (t ++ ".AX") = f₂ (t ++ ".AX") →
      checkMarketVolatility f₁ t = checkMarketVolatility f₂ t := by
  refine ⟨rfl, ?_, ?_⟩
  · intro h
    have hlen := congrArg String.length h
    rw [queriedSymbol, String.length_append] at hlen
    have h3 : ".AX".length = 3 := rfl
    omega
  · intro f₁ f₂ h
    rw [checkMarketVolatility, checkMarketVolatility]
    show (match f₁ (queriedSymbol t) with
      | none => Volatility.unknown
      | some hist => classifyHistory hist) = _
    rw [show f₁ (queriedSymbol t) = f₂ (queriedSymbol t) from h]

/-- Claim C10, witness: two fetch oracles that agree at `BHP.AX` but
differ elsewhere give the same classification for ticker `BHP`. -/
theorem queried_symbol_ax_witness :
    fetchW ("BHP" ++ ".AX") = fetchW2 ("BHP" ++ ".AX") ∧
    checkMarketVolatility fetchW "BHP" = checkMarketVolatility fetchW2 "BHP" :=
  ⟨rfl, (queried_symbol_ax "BHP").2.2 fetchW fetchW2 rfl⟩
